import Mathlib

/-!
Shallow embedding of the channel handles of rusty_junctions
(src/channels.rs) together with the Envelope types they exchange with the
Junction, and theorems checking the specification's claims about them.

The handles are pure data plus methods; the only effects they perform are
a push into the shared mpsc intake transport of their Junction and, for the
blocking kinds, the creation of a fresh private one-shot reply pair followed
by a blocking read of its receiving half.  We embed those effects by
explicit state passing: the mpsc queue is a `MpscState`, the allocation of
fresh one-shot pairs is a counter threaded through `ChanState`, and the
value eventually delivered (or not) into a one-shot pair is supplied by an
environment function `Nat → ReplyOutcome R` standing for whatever the
dispatch thread does with the reply Sender it received.
-/

namespace RustyJunctions

/-- Modelled from the spec (src/types.rs, which defines `ids`, is not among
the given sources): opaque, immutable channel identity. -/
structure ChannelId where
  raw : Nat

/-- Modelled from the spec (src/types.rs is not among the given sources):
identity of the owning Junction. -/
structure JunctionId where
  raw : Nat

/-- Zero-sized static type marker, mirroring std::marker::PhantomData. -/
structure PhantomData (α : Type)

/-- Shape of the value a `Message` was created from.  In the source,
`Message::new` boxes an arbitrary `Any + Send` value; the three call sites
in src/channels.rs box either a plain user value (`SendChannel::send`), a
bare reply `Sender` (`RecvChannel::recv`), or a `(value, reply Sender)`
pair (`BidirChannel::send_recv`).  A reply `Sender` is represented by the
`Nat` identity of its one-shot pair. -/
inductive Payload (T R : Type) where
  | val : T → Payload T R
  | replySender : Nat → Payload T R
  | pair : T → Nat → Payload T R

/-- Modelled from the spec (src/types.rs is not among the given sources):
a `Message` is an owned, type-erased value; we keep the shape it was
created from. -/
structure Message (T R : Type) where
  payload : Payload T R

/-- Constructor used at every `Message::new(...)` call site. -/
def Message.new {T R : Type} (p : Payload T R) : Message T R :=
  ⟨p⟩

/-- Modelled from the spec (src/types.rs is not among the given sources):
the Envelope exchanged across threads, `Packet::Message { channel_id, msg }`
pairing a `ChannelId` with a `Message`. -/
inductive Packet (T R : Type) where
  | Message : ChannelId → RustyJunctions.Message T R → Packet T R

/-- std::sync::mpsc::RecvError: a fieldless error value. -/
structure RecvError

/-- std::sync::mpsc::SendError<P>: wraps the value that could not be sent. -/
structure SendError (P : Type) where
  val : P

/-- State of a std::sync::mpsc queue holding elements of type `P`: whether
the receiving half has been dropped (the queue is disconnected) and the
elements currently queued, oldest first. -/
structure MpscState (P : Type) where
  closed : Bool
  queue : List P

/-- `Sender::send`: on a connected queue the element is appended at the tail
and `Ok(())` is returned; on a disconnected queue nothing is enqueued and
the element is handed back inside the `SendError`. -/
def mpscSend {P : Type} (p : P) (st : MpscState P) :
    Except (SendError P) Unit × MpscState P :=
  if st.closed then (Except.error ⟨p⟩, st)
  else (Except.ok (), { st with queue := st.queue ++ [p] })

/-- Call-time state threaded through the blocking operations: the state of
the Junction intake transport the handle's `Sender` refers to, plus a
counter allocating identities for the fresh one-shot reply pairs produced
by `channel::<R>()`. -/
structure ChanState (T R : Type) where
  transport : MpscState (Packet T R)
  nextReplyId : Nat

/-- `std::sync::mpsc::channel::<R>()` as used for the private reply pair:
returns the identity of a freshly allocated pair (standing for both its
`Sender` and `Receiver` halves) and advances the allocator, so the identity
differs from that of every previously allocated pair. -/
def mkReplyPair {T R : Type} (st : ChanState T R) : Nat × ChanState T R :=
  (st.nextReplyId, { st with nextReplyId := st.nextReplyId + 1 })

/-- Outcome the environment (the Junction's dispatch thread) provides for a
given one-shot reply pair: either some value is delivered into its `Sender`
half, or every `Sender` half is dropped with nothing delivered. -/
inductive ReplyOutcome (R : Type) where
  | delivered : R → ReplyOutcome R
  | closed : ReplyOutcome R

/-- `Receiver::recv` on a one-shot reply pair: the delivered value, or
`RecvError` once the sending half is gone with nothing delivered. -/
def oneShotRecv {R : Type} (o : ReplyOutcome R) : Except RecvError R :=
  match o with
  | ReplyOutcome.delivered v => Except.ok v
  | ReplyOutcome.closed => Except.error ⟨⟩

/-- Result of running a body that may `.unwrap()` an `Err`: either the
body's value, or a panic of the calling thread. -/
inductive RunResult (A : Type) where
  | ok : A → RunResult A
  | panicked : RunResult A

/-- Asynchronous, message sending channel (src/channels.rs `SendChannel<T>`).
The `sender` field is the identity of the shared Junction intake transport
its cloned `Sender` refers to.  The extra type parameter `R` only fixes the
reply type appearing in the (type-erased, in Rust) `Packet` type. -/
structure SendChannel (T R : Type) where
  id : ChannelId
  junction_id : JunctionId
  sender : Nat
  send_type : PhantomData T

/-- Stripped down version of `SendChannel`: only the channel id and the
static type marker, no transport `Sender`, no junction id. -/
structure StrippedSendChannel (T : Type) where
  id : ChannelId
  send_type : PhantomData T

/-- `StrippedSendChannel::new`. -/
def StrippedSendChannel.new {T : Type} (i : ChannelId) : StrippedSendChannel T :=
  { id := i, send_type := ⟨⟩ }

/-- `SendChannel::new`. -/
def SendChannel.new {T R : Type} (i : ChannelId) (j : JunctionId) (s : Nat) :
    SendChannel T R :=
  { id := i, junction_id := j, sender := s, send_type := ⟨⟩ }

/-- `SendChannel::strip`. -/
def SendChannel.strip {T R : Type} (c : SendChannel T R) : StrippedSendChannel T :=
  StrippedSendChannel.new c.id

/-- `SendChannel::send`: builds one `Packet::Message` from the channel's own
id and `Message::new(value)` and pushes it into the intake transport, whose
state is passed explicitly. -/
def SendChannel.send {T R : Type} (c : SendChannel T R) (v : T)
    (st : MpscState (Packet T R)) :
    Except (SendError (Packet T R)) Unit × MpscState (Packet T R) :=
  mpscSend (Packet.Message c.id (Message.new (Payload.val v))) st

/-- `#[derive(Clone)]` on `SendChannel`: a memberwise clone; cloning the
mpsc `Sender` yields a handle to the same underlying queue, which the
`sender` identity field captures. -/
def SendChannel.clone {T R : Type} (c : SendChannel T R) : SendChannel T R :=
  c

/-- Synchronous, value receiving channel (src/channels.rs `RecvChannel<R>`).
The extra type parameter `T` only fixes the user-value type appearing in
the (type-erased, in Rust) `Packet` type. -/
structure RecvChannel (T R : Type) where
  id : ChannelId
  junction_id : JunctionId
  sender : Nat
  recv_type : PhantomData R

/-- Stripped down version of `RecvChannel`: only the channel id and the
static type marker. -/
structure StrippedRecvChannel (R : Type) where
  id : ChannelId
  recv_type : PhantomData R

/-- `StrippedRecvChannel::new`. -/
def StrippedRecvChannel.new {R : Type} (i : ChannelId) : StrippedRecvChannel R :=
  { id := i, recv_type := ⟨⟩ }

/-- `RecvChannel::new`. -/
def RecvChannel.new {T R : Type} (i : ChannelId) (j : JunctionId) (s : Nat) :
    RecvChannel T R :=
  { id := i, junction_id := j, sender := s, recv_type := ⟨⟩ }

/-- `RecvChannel::strip`. -/
def RecvChannel.strip {T R : Type} (c : RecvChannel T R) : StrippedRecvChannel R :=
  StrippedRecvChannel.new c.id

/-- `RecvChannel::recv`: creates a fresh one-shot reply pair `(tx, rx)`,
pushes one `Packet::Message` with the channel's own id and the reply
`Sender` as payload, `.unwrap()`s the push (panicking if the transport is
closed), then blocks on `rx`.  The environment `env` says what is
eventually delivered into each one-shot pair. -/
def RecvChannel.recv {T R : Type} (c : RecvChannel T R)
    (env : Nat → ReplyOutcome R) (st : ChanState T R) :
    RunResult (Except RecvError R) × ChanState T R :=
  match mkReplyPair st with
  | (tx, st1) =>
    match mpscSend (Packet.Message c.id (Message.new (Payload.replySender tx)))
        st1.transport with
    | (Except.error _, t) => (RunResult.panicked, { st1 with transport := t })
    | (Except.ok _, t) =>
        (RunResult.ok (oneShotRecv (env tx)), { st1 with transport := t })

/-- `#[derive(Clone)]` on `RecvChannel`. -/
def RecvChannel.clone {T R : Type} (c : RecvChannel T R) : RecvChannel T R :=
  c

/-- Synchronous, bidirectional message channel
(src/channels.rs `BidirChannel<T, R>`). -/
structure BidirChannel (T R : Type) where
  id : ChannelId
  junction_id : JunctionId
  sender : Nat
  send_type : PhantomData T
  recv_type : PhantomData R

/-- Stripped down version of `BidirChannel`: only the channel id and the
static type markers. -/
structure StrippedBidirChannel (T R : Type) where
  id : ChannelId
  send_type : PhantomData T
  recv_type : PhantomData R

/-- `StrippedBidirChannel::new`. -/
def StrippedBidirChannel.new {T R : Type} (i : ChannelId) :
    StrippedBidirChannel T R :=
  { id := i, send_type := ⟨⟩, recv_type := ⟨⟩ }

/-- `BidirChannel::new`. -/
def BidirChannel.new {T R : Type} (i : ChannelId) (j : JunctionId) (s : Nat) :
    BidirChannel T R :=
  { id := i, junction_id := j, sender := s, send_type := ⟨⟩, recv_type := ⟨⟩ }

/-- `BidirChannel::strip`. -/
def BidirChannel.strip {T R : Type} (c : BidirChannel T R) :
    StrippedBidirChannel T R :=
  StrippedBidirChannel.new c.id

/-- `BidirChannel::send_recv`: creates a fresh one-shot reply pair
`(tx, rx)`, pushes a single `Packet::Message` with the channel's own id and
the `(msg, tx)` pair as payload, `.unwrap()`s the push (panicking if the
transport is closed), then blocks on `rx`. -/
def BidirChannel.send_recv {T R : Type} (c : BidirChannel T R) (v : T)
    (env : Nat → ReplyOutcome R) (st : ChanState T R) :
    RunResult (Except RecvError R) × ChanState T R :=
  match mkReplyPair st with
  | (tx, st1) =>
    match mpscSend (Packet.Message c.id (Message.new (Payload.pair v tx)))
        st1.transport with
    | (Except.error _, t) => (RunResult.panicked, { st1 with transport := t })
    | (Except.ok _, t) =>
        (RunResult.ok (oneShotRecv (env tx)), { st1 with transport := t })

/-- `#[derive(Clone)]` on `BidirChannel`. -/
def BidirChannel.clone {T R : Type} (c : BidirChannel T R) : BidirChannel T R :=
  c

/-- Modelled from the spec: the Junction's dispatch loop (the Junction
source is not among the given sources).  Per spec section 4.3 the dispatch
point owns the message bag exclusively, pulls one Envelope at a time from
the intake transport and enqueues it into the matching channel's bag; a
reply handoff travels embedded in the Message, so bagging the Message is
also what registers the reply obligation.  The state is the bag contents in
arrival order. -/
structure DispatchState (T R : Type) where
  bag : List (ChannelId × Message T R)

/-- Modelled from the spec: one iteration of the dispatch loop processing a
single Envelope — append its Message to the bag of its channel. -/
def dispatchStep {T R : Type} (s : DispatchState T R) (p : Packet T R) :
    DispatchState T R :=
  match p with
  | Packet.Message cid msg => { bag := s.bag ++ [(cid, msg)] }

/-- Modelled from the spec: the dispatch loop processing a sequence of
Envelopes strictly one at a time, in order. -/
def dispatchRun {T R : Type} (s : DispatchState T R) (ps : List (Packet T R)) :
    DispatchState T R :=
  ps.foldl dispatchStep s

/-- The bag entry an Envelope contributes when processed. -/
def entryOf {T R : Type} : Packet T R → ChannelId × Message T R
  | Packet.Message cid msg => (cid, msg)

/-- The send-then-receive value `v`, sent on channel `cid` with reply pair
`tx`, is visible to pattern matching in state `s`. -/
def visibleToMatching {T R : Type} (s : DispatchState T R) (cid : ChannelId)
    (v : T) (tx : Nat) : Prop :=
  (cid, Message.new (Payload.pair v tx)) ∈ s.bag

/-- The reply obligation for one-shot pair `tx` is registered in state `s`:
some bagged Message embeds the reply `Sender` of pair `tx`. -/
def obligationRegistered {T R : Type} (s : DispatchState T R) (tx : Nat) : Prop :=
  ∃ cid msg, (cid, msg) ∈ s.bag ∧
    (msg.payload = Payload.replySender tx ∨ ∃ v, msg.payload = Payload.pair v tx)

/-- Whether an Envelope's payload embeds the reply `Sender` of pair `tx`. -/
def mentionsReply {T R : Type} : Packet T R → Nat → Bool
  | Packet.Message _ ⟨Payload.val _⟩, _ => false
  | Packet.Message _ ⟨Payload.replySender t⟩, tx => t == tx
  | Packet.Message _ ⟨Payload.pair _ t⟩, tx => t == tx

/-- Concrete handle used by witnesses. -/
def sampleSend : SendChannel Nat Nat :=
  SendChannel.new ⟨1⟩ ⟨2⟩ 3

/-- Concrete handle used by witnesses. -/
def sampleRecv : RecvChannel Nat Nat :=
  RecvChannel.new ⟨4⟩ ⟨5⟩ 6

/-- Concrete handle used by witnesses. -/
def sampleBidir : BidirChannel Nat Nat :=
  BidirChannel.new ⟨7⟩ ⟨8⟩ 9

/-- Environment delivering 11 into every reply pair, used by witnesses. -/
def envDelivered : Nat → ReplyOutcome Nat :=
  fun _ => ReplyOutcome.delivered 11

/-- Environment closing every reply pair undelivered, used by witnesses. -/
def envClosed : Nat → ReplyOutcome Nat :=
  fun _ => ReplyOutcome.closed

/-- Call-time state with an open, empty intake transport. -/
def stOpen : ChanState Nat Nat :=
  ⟨⟨false, []⟩, 0⟩

/-- Call-time state whose intake transport is closed. -/
def stClosed : ChanState Nat Nat :=
  ⟨⟨true, []⟩, 0⟩

/-- C1: `send_recv(v)` allocates a fresh private one-shot reply pair (the
allocator's next identity, advanced by one so it differs from every pair
allocated before), pushes exactly one Envelope — the queue grows by that
single Packet and nothing else — whose channel id is the channel's own id
and whose Message payload is the pair of `v` and the reply Sender, and then
blocks on the reply receiver of that fresh pair. -/
theorem send_recv_single_envelope {T R : Type} (c : BidirChannel T R) (v : T)
    (env : Nat → ReplyOutcome R) (st : ChanState T R)
    (hopen : st.transport.closed = false) :
    (c.send_recv v env st).2.transport.queue =
      st.transport.queue ++
        [Packet.Message c.id (Message.new (Payload.pair v st.nextReplyId))] ∧
    (c.send_recv v env st).2.nextReplyId = st.nextReplyId + 1 ∧
    (c.send_recv v env st).1 = RunResult.ok (oneShotRecv (env st.nextReplyId)) := by
  simp [BidirChannel.send_recv, mkReplyPair, mpscSend, hopen]

/-- Witness for C1 at a concrete channel, value and open state. -/
theorem send_recv_single_envelope_witness :
    (sampleBidir.send_recv 7 envDelivered stOpen).2.transport.queue =
      [] ++ [Packet.Message ⟨7⟩ (Message.new (Payload.pair 7 0))] ∧
    (sampleBidir.send_recv 7 envDelivered stOpen).2.nextReplyId = 0 + 1 ∧
    (sampleBidir.send_recv 7 envDelivered stOpen).1 =
      RunResult.ok (oneShotRecv (envDelivered 0)) :=
  send_recv_single_envelope sampleBidir 7 envDelivered stOpen rfl

/-- C2: `send(v)` builds exactly one Envelope pairing the channel's own id
with `Message::new(v)`; when the intake transport is open it is appended to
the queue and `Ok(())` is returned without any wait, and when the transport
is closed (Junction gone) an `Err(SendError)` is returned.  The operation
is a total function of the transport state — it has no panicking path. -/
theorem send_ok_or_err {T R : Type} (c : SendChannel T R) (v : T)
    (st : MpscState (Packet T R)) :
    (st.closed = false →
      c.send v st =
        (Except.ok (),
         { st with queue :=
             st.queue ++ [Packet.Message c.id (Message.new (Payload.val v))] })) ∧
    (st.closed = true →
      c.send v st =
        (Except.error ⟨Packet.Message c.id (Message.new (Payload.val v))⟩, st)) := by
  constructor <;> intro h <;> simp [SendChannel.send, mpscSend, h]

/-- Witness for C2 at a concrete channel, value and open transport. -/
theorem send_ok_or_err_witness :
    sampleSend.send 5 ⟨false, []⟩ =
      (Except.ok (), ⟨false, [Packet.Message ⟨1⟩ (Message.new (Payload.val 5))]⟩) :=
  (send_ok_or_err sampleSend 5 ⟨false, []⟩).1 rfl

/-- C3: `recv()` allocates a fresh private one-shot reply pair (the
allocator's next identity, advanced by one), pushes exactly one Envelope
whose channel id is the channel's own id and whose Message payload is the
reply Sender itself with no user value, then blocks on the reply receiver;
whenever a value `w` is delivered into the reply handoff, the call returns
`Ok(w)`. -/
theorem recv_single_envelope {T R : Type} (c : RecvChannel T R)
    (env : Nat → ReplyOutcome R) (st : ChanState T R)
    (hopen : st.transport.closed = false) :
    (c.recv env st).2.transport.queue =
      st.transport.queue ++
        [Packet.Message c.id (Message.new (Payload.replySender st.nextReplyId))] ∧
    (c.recv env st).2.nextReplyId = st.nextReplyId + 1 ∧
    (c.recv env st).1 = RunResult.ok (oneShotRecv (env st.nextReplyId)) ∧
    (∀ w, env st.nextReplyId = ReplyOutcome.delivered w →
      (c.recv env st).1 = RunResult.ok (Except.ok w)) := by
  refine ⟨?_, ?_, ?_, ?_⟩ <;>
    simp [RecvChannel.recv, mkReplyPair, mpscSend, hopen, oneShotRecv]
  intro w hw
  simp [hw]

/-- Witness for C3 at a concrete channel and open state. -/
theorem recv_single_envelope_witness :
    (sampleRecv.recv envDelivered stOpen).2.transport.queue =
      [] ++ [Packet.Message ⟨4⟩ (Message.new (Payload.replySender 0))] ∧
    (sampleRecv.recv envDelivered stOpen).2.nextReplyId = 0 + 1 ∧
    (sampleRecv.recv envDelivered stOpen).1 =
      RunResult.ok (oneShotRecv (envDelivered 0)) ∧
    (∀ w, envDelivered 0 = ReplyOutcome.delivered w →
      (sampleRecv.recv envDelivered stOpen).1 = RunResult.ok (Except.ok w)) :=
  recv_single_envelope sampleRecv envDelivered stOpen rfl

/-- C4: when the intake transport is closed, so the Envelope cannot even be
pushed, `recv()` and `send_recv()` panic (the `.unwrap()` on the failed
push) and in particular never hand the failure back as a `Result` error
value. -/
theorem closed_transport_panics {T R : Type} (c : RecvChannel T R)
    (b : BidirChannel T R) (v : T) (env : Nat → ReplyOutcome R)
    (st : ChanState T R) (hclosed : st.transport.closed = true) :
    (c.recv env st).1 = RunResult.panicked ∧
    (b.send_recv v env st).1 = RunResult.panicked ∧
    (∀ e : Except RecvError R, (c.recv env st).1 ≠ RunResult.ok e) ∧
    (∀ e : Except RecvError R, (b.send_recv v env st).1 ≠ RunResult.ok e) := by
  refine ⟨?_, ?_, ?_, ?_⟩ <;>
    simp [RecvChannel.recv, BidirChannel.send_recv, mkReplyPair, mpscSend, hclosed]

/-- Witness for C4 at concrete channels and a closed transport. -/
theorem closed_transport_panics_witness :
    (sampleRecv.recv envDelivered stClosed).1 = RunResult.panicked ∧
    (sampleBidir.send_recv 7 envDelivered stClosed).1 = RunResult.panicked ∧
    (∀ e : Except RecvError Nat,
      (sampleRecv.recv envDelivered stClosed).1 ≠ RunResult.ok e) ∧
    (∀ e : Except RecvError Nat,
      (sampleBidir.send_recv 7 envDelivered stClosed).1 ≠ RunResult.ok e) :=
  closed_transport_panics sampleRecv sampleBidir 7 envDelivered stClosed rfl

/-- C5: when the Envelope was pushed but the private one-shot reply pair
closes before a value is delivered, `recv()` and `send_recv()` return
`Err(RecvError)` as an ordinary value — the call terminates and does not
panic. -/
theorem reply_closed_recv_err {T R : Type} (c : RecvChannel T R)
    (b : BidirChannel T R) (v : T) (env : Nat → ReplyOutcome R)
    (st : ChanState T R) (hopen : st.transport.closed = false)
    (hreply : env st.nextReplyId = ReplyOutcome.closed) :
    (c.recv env st).1 = RunResult.ok (Except.error ⟨⟩) ∧
    (b.send_recv v env st).1 = RunResult.ok (Except.error ⟨⟩) := by
  constructor <;>
    simp [RecvChannel.recv, BidirChannel.send_recv, mkReplyPair, mpscSend, hopen,
      hreply, oneShotRecv]

/-- Witness for C5 at concrete channels, an open transport and an
environment that closes every reply pair. -/
theorem reply_closed_recv_err_witness :
    (sampleRecv.recv envClosed stOpen).1 = RunResult.ok (Except.error ⟨⟩) ∧
    (sampleBidir.send_recv 7 envClosed stOpen).1 =
      RunResult.ok (Except.error ⟨⟩) :=
  reply_closed_recv_err sampleRecv sampleBidir 7 envClosed stOpen rfl rfl

/-- C9: when `send(v)` fails, the returned `SendError` wraps exactly the
undelivered Packet — the channel's id paired with `Message::new(v)` — and
the transport state is returned unchanged: nothing was enqueued. -/
theorem send_err_recovers_packet {T R : Type} (c : SendChannel T R) (v : T)
    (st : MpscState (Packet T R)) (hclosed : st.closed = true) :
    c.send v st =
      (Except.error ⟨Packet.Message c.id (Message.new (Payload.val v))⟩, st) := by
  simp [SendChannel.send, mpscSend, hclosed]

/-- Witness for C9 at a concrete channel, value and closed transport. -/
theorem send_err_recovers_packet_witness :
    sampleSend.send 5 ⟨true, [Packet.Message ⟨0⟩ (Message.new (Payload.val 9))]⟩ =
      (Except.error ⟨Packet.Message ⟨1⟩ (Message.new (Payload.val 5))⟩,
       ⟨true, [Packet.Message ⟨0⟩ (Message.new (Payload.val 9))]⟩) :=
  send_err_recovers_packet sampleSend 5
    ⟨true, [Packet.Message ⟨0⟩ (Message.new (Payload.val 9))]⟩ rfl

/-- C7: `strip()` on each of the three handle kinds yields a token whose id
equals the original handle's id, and the stripped types are identity-only:
two stripped tokens with the same id are equal, so a token determines
nothing beyond the channel id and its static type markers — in particular
no transport `Sender` and no junction id. -/
theorem strip_identity_only (T R : Type) :
    (∀ c : SendChannel T R, c.strip.id = c.id) ∧
    (∀ c : RecvChannel T R, c.strip.id = c.id) ∧
    (∀ c : BidirChannel T R, c.strip.id = c.id) ∧
    (∀ s t : StrippedSendChannel T, s.id = t.id → s = t) ∧
    (∀ s t : StrippedRecvChannel R, s.id = t.id → s = t) ∧
    (∀ s t : StrippedBidirChannel T R, s.id = t.id → s = t) := by
  refine ⟨fun _ => rfl, fun _ => rfl, fun _ => rfl, ?_, ?_, ?_⟩ <;>
    · intro s t h
      cases s
      cases t
      cases h
      rfl

/-- Witness for C7 at concrete handles and tokens. -/
theorem strip_identity_only_witness :
    sampleSend.strip.id = sampleSend.id ∧
    sampleRecv.strip.id = sampleRecv.id ∧
    sampleBidir.strip.id = sampleBidir.id ∧
    (StrippedSendChannel.new ⟨1⟩ : StrippedSendChannel Nat) = sampleSend.strip :=
  ⟨(strip_identity_only Nat Nat).1 sampleSend,
   (strip_identity_only Nat Nat).2.1 sampleRecv,
   (strip_identity_only Nat Nat).2.2.1 sampleBidir,
   (strip_identity_only Nat Nat).2.2.2.1 (StrippedSendChannel.new ⟨1⟩)
     sampleSend.strip rfl⟩

/-- C8: on each of the three handle kinds, `id()` and `junction_id()`
return exactly the ids the handle was constructed with, and `strip` carries
that same id over.  Every method of the Rust handles takes `&self`, which
the embedding mirrors by functions that consume the handle immutably, so no
operation can alter the stored ids. -/
theorem ids_from_construction {T R : Type} (i : ChannelId) (j : JunctionId)
    (s : Nat) :
    (SendChannel.new i j s : SendChannel T R).id = i ∧
    (SendChannel.new i j s : SendChannel T R).junction_id = j ∧
    (RecvChannel.new i j s : RecvChannel T R).id = i ∧
    (RecvChannel.new i j s : RecvChannel T R).junction_id = j ∧
    (BidirChannel.new i j s : BidirChannel T R).id = i ∧
    (BidirChannel.new i j s : BidirChannel T R).junction_id = j ∧
    (SendChannel.new i j s : SendChannel T R).strip.id = i ∧
    (RecvChannel.new i j s : RecvChannel T R).strip.id = i ∧
    (BidirChannel.new i j s : BidirChannel T R).strip.id = i :=
  ⟨rfl, rfl, rfl, rfl, rfl, rfl, rfl, rfl, rfl⟩

/-- C10: cloning any of the three handle kinds is a memberwise copy, so the
clone carries the same channel id, the same junction id and a `Sender`
referring to the same Junction intake transport, and every operation run
through the clone has exactly the effect it has through the original. -/
theorem clone_interchangeable (T R : Type) :
    (∀ c : SendChannel T R, c.clone.id = c.id ∧
      c.clone.junction_id = c.junction_id ∧ c.clone.sender = c.sender ∧
      ∀ (v : T) (st : MpscState (Packet T R)), c.clone.send v st = c.send v st) ∧
    (∀ c : RecvChannel T R, c.clone.id = c.id ∧
      c.clone.junction_id = c.junction_id ∧ c.clone.sender = c.sender ∧
      ∀ (env : Nat → ReplyOutcome R) (st : ChanState T R),
        c.clone.recv env st = c.recv env st) ∧
    (∀ c : BidirChannel T R, c.clone.id = c.id ∧
      c.clone.junction_id = c.junction_id ∧ c.clone.sender = c.sender ∧
      ∀ (v : T) (env : Nat → ReplyOutcome R) (st : ChanState T R),
        c.clone.send_recv v env st = c.send_recv v env st) :=
  ⟨fun _ => ⟨rfl, rfl, rfl, fun _ _ => rfl⟩,
   fun _ => ⟨rfl, rfl, rfl, fun _ _ => rfl⟩,
   fun _ => ⟨rfl, rfl, rfl, fun _ _ _ => rfl⟩⟩

/-- Bag contents after the dispatch loop processes a sequence of Envelopes:
the entries of the Envelopes, appended in processing order. -/
theorem dispatchRun_bag {T R : Type} (s : DispatchState T R)
    (ps : List (Packet T R)) :
    (dispatchRun s ps).bag = s.bag ++ ps.map entryOf := by
  induction ps generalizing s with
  | nil => simp [dispatchRun]
  | cons p ps ih =>
    cases p with
    | Message cid msg =>
      have hstep : dispatchRun s (Packet.Message cid msg :: ps) =
          dispatchRun (dispatchStep s (Packet.Message cid msg)) ps := rfl
      rw [hstep, ih]
      simp [dispatchStep, entryOf]

/-- C6: spec-modelled atomicity of send-then-receive.  Start the dispatch
loop on an empty bag and feed it any sequence of Envelopes in which the
single send-then-receive Envelope for value `v` with reply pair `tx`
appears after a prefix `pre` none of whose Envelopes embeds the Sender of
pair `tx`.  Before that Envelope is processed its value is not visible to
matching and its reply obligation is not registered; processing it makes
both true in that one step; and the whole run factors through this single
step, so no other Envelope is processed between the value becoming visible
and the obligation being registered. -/
theorem send_recv_atomicity {T R : Type} (pre : List (Packet T R))
    (cid : ChannelId) (v : T) (tx : Nat)
    (hfresh : ∀ q ∈ pre, mentionsReply q tx = false) :
    (¬ visibleToMatching (dispatchRun ⟨[]⟩ pre) cid v tx ∧
     ¬ obligationRegistered (dispatchRun ⟨[]⟩ pre) tx) ∧
    (visibleToMatching
        (dispatchStep (dispatchRun ⟨[]⟩ pre)
          (Packet.Message cid (Message.new (Payload.pair v tx)))) cid v tx ∧
     obligationRegistered
        (dispatchStep (dispatchRun ⟨[]⟩ pre)
          (Packet.Message cid (Message.new (Payload.pair v tx)))) tx) ∧
    (∀ post : List (Packet T R),
      dispatchRun ⟨[]⟩
          (pre ++ Packet.Message cid (Message.new (Payload.pair v tx)) :: post) =
        dispatchRun
          (dispatchStep (dispatchRun ⟨[]⟩ pre)
            (Packet.Message cid (Message.new (Payload.pair v tx)))) post) := by
  have hbag : (dispatchRun (⟨[]⟩ : DispatchState T R) pre).bag = pre.map entryOf := by
    rw [dispatchRun_bag]
    simp
  have hfresh' : ∀ cid' msg, (cid', msg) ∈ pre.map entryOf →
      mentionsReply (Packet.Message cid' msg) tx = false := by
    intro cid' msg hmem
    rcases List.mem_map.mp hmem with ⟨q, hq, hentry⟩
    cases q with
    | Message c2 m2 =>
      have h2 : c2 = cid' ∧ m2 = msg := by
        simpa [entryOf] using hentry
      rcases h2 with ⟨rfl, rfl⟩
      exact hfresh _ hq
  refine ⟨⟨?_, ?_⟩, ⟨?_, ?_⟩, ?_⟩
  · intro hvis
    have hm := hfresh' cid (Message.new (Payload.pair v tx))
      (by rw [← hbag]; exact hvis)
    simp [mentionsReply, Message.new] at hm
  · rintro ⟨cid', msg, hmem, hpay⟩
    have hm := hfresh' cid' msg (by rw [← hbag]; exact hmem)
    cases msg with
    | mk p =>
      rcases hpay with hpay | ⟨w, hpay⟩ <;>
        · simp only at hpay
          subst hpay
          simp [mentionsReply] at hm
  · show _ ∈ _
    simp [dispatchStep]
  · exact ⟨cid, Message.new (Payload.pair v tx), by simp [dispatchStep],
      Or.inr ⟨v, rfl⟩⟩
  · intro post
    simp [dispatchRun, List.foldl_append]

/-- Concrete dispatch prefix used by the atomicity witness: two unrelated
Envelopes mentioning other channels and another reply pair. -/
def prePackets : List (Packet Nat Nat) :=
  [Packet.Message ⟨1⟩ (Message.new (Payload.val 5)),
   Packet.Message ⟨2⟩ (Message.new (Payload.replySender 4))]

/-- Witness for C6 at a concrete prefix, channel, value and reply pair. -/
theorem send_recv_atomicity_witness :
    (∀ q ∈ prePackets, mentionsReply q 0 = false) ∧
    ((¬ visibleToMatching (dispatchRun ⟨[]⟩ prePackets) ⟨3⟩ 7 0 ∧
      ¬ obligationRegistered (dispatchRun ⟨[]⟩ prePackets) 0) ∧
     (visibleToMatching
        (dispatchStep (dispatchRun ⟨[]⟩ prePackets)
          (Packet.Message ⟨3⟩ (Message.new (Payload.pair 7 0)))) ⟨3⟩ 7 0 ∧
      obligationRegistered
        (dispatchStep (dispatchRun ⟨[]⟩ prePackets)
          (Packet.Message ⟨3⟩ (Message.new (Payload.pair 7 0)))) 0) ∧
     (∀ post : List (Packet Nat Nat),
       dispatchRun ⟨[]⟩
           (prePackets ++ Packet.Message ⟨3⟩ (Message.new (Payload.pair 7 0)) :: post) =
         dispatchRun
           (dispatchStep (dispatchRun ⟨[]⟩ prePackets)
             (Packet.Message ⟨3⟩ (Message.new (Payload.pair 7 0)))) post)) :=
  ⟨by decide, send_recv_atomicity prePackets ⟨3⟩ 7 0 (by decide)⟩

end RustyJunctions
